import Mathlib

/-!
Shallow embedding of the audio capture and auto-stop engine of
`src/audio_capture.py` (class `AudioCapture`), together with theorems
settling the specified properties of the silence detector, the monitor
loop, the start/stop operations and the artifact writer interactions.

Modelling conventions:
* an audio chunk (one `indata.copy()` of the device callback) is a list of
  rational sample values; the RMS computation casts into the reals, where
  `Real.sqrt` embeds `np.sqrt`;
* wall-clock times (`time.time()`) are rationals;
* a temp file path produced by `tempfile.mkstemp` is modelled by a fresh
  natural number drawn from a counter (`mkstemp` guarantees uniqueness);
* the observable side effects (files written by `sf.write`, UI events sent
  through `ui_callback`, invocations of `on_auto_stop_callback`, streams
  opened, monitor threads launched) are recorded in the state;
* one iteration of the `_monitor_silence` loop body is `monitor_tick`,
  fed the current time, the chunks the producer callback delivered since
  the previous iteration, the verdict of `_is_silent()`, and whether
  `sf.write` would succeed if the iteration finalizes the session.
-/

namespace VoxCode

/-- One audio chunk: the samples delivered by one device callback. -/
abbrev Chunk : Type := List ℚ

/-- `np.mean(chunk**2)`: the mean of the squared samples of a chunk. -/
def meanSquare (c : Chunk) : ℚ :=
  (c.map (fun x => x * x)).sum / (c.length : ℚ)

/-- `np.sqrt(np.mean(chunk**2))`: root-mean-square amplitude of a chunk. -/
noncomputable def rms (c : Chunk) : ℝ :=
  Real.sqrt ((meanSquare c : ℚ) : ℝ)

/-- `AudioCapture._is_silent`: true when the recording buffer is empty,
otherwise compares the RMS of the last appended chunk strictly against the
threshold (`rms < self.silence_threshold`). -/
def is_silent (recording : List Chunk) (silence_threshold : ℚ) : Prop :=
  match recording.getLast? with
  | none => True
  | some last_chunk => rms last_chunk < (silence_threshold : ℝ)

/-- One UI event delivered through `ui_callback`. -/
inductive UiEvent : Type
  | recording_started : UiEvent
  | duration_update : ℤ → UiEvent
  | recording_stopped : ℕ → UiEvent
  deriving DecidableEq

/-- Outcome of `stop_recording`: the returned audio path (`none` models the
`return None` on an empty buffer), or the `sf.write` exception propagating. -/
inductive StopOutcome : Type
  | ok : Option ℕ → StopOutcome
  | writeFailed : StopOutcome
  deriving DecidableEq

/-- The state of one `AudioCapture` object, together with the record of its
observable effects. Fields up to `recording_start_time` are the Python
attributes; the remaining fields log effects for the theorems. -/
structure EngineState : Type where
  samplerate : ℕ
  silence_threshold : ℚ
  silence_duration : ℚ
  min_recording_time : ℚ
  recording : List Chunk
  stream : Bool
  is_recording : Bool
  silence_start_time : Option ℚ
  recording_start_time : ℚ
  on_auto_stop_set : Bool
  ui_set : Bool
  files : List Chunk
  nextPath : ℕ
  uiEvents : List UiEvent
  autoStopCalls : List ℕ
  streamsOpened : ℕ
  monitorsLaunched : ℕ
  deriving DecidableEq

/-- The `AudioCapture.__init__` state with the default configuration. -/
def mkState : EngineState :=
  { samplerate := 16000
    silence_threshold := 1/100
    silence_duration := 3/2
    min_recording_time := 2
    recording := []
    stream := false
    is_recording := false
    silence_start_time := none
    recording_start_time := 0
    on_auto_stop_set := false
    ui_set := false
    files := []
    nextPath := 0
    uiEvents := []
    autoStopCalls := []
    streamsOpened := 0
    monitorsLaunched := 0 }

/-- `AudioCapture.start_recording_with_auto_stop`: stores the callbacks,
resets the buffer and the timers, opens and starts a fresh input stream,
notifies the UI, and launches a monitor thread. There is no guard of any
kind on `is_recording`. -/
def start_recording_with_auto_stop (on_auto_stop ui_callback : Bool)
    (now : ℚ) (s : EngineState) : EngineState :=
  let s1 := { s with on_auto_stop_set := on_auto_stop, ui_set := ui_callback,
                     recording := [], is_recording := true,
                     silence_start_time := none, recording_start_time := now }
  let s2 := { s1 with stream := true, streamsOpened := s1.streamsOpened + 1 }
  let s3 := { s2 with uiEvents := s2.uiEvents ++
                (if s2.ui_set then [UiEvent.recording_started] else []) }
  { s3 with monitorsLaunched := s3.monitorsLaunched + 1 }

/-- `AudioCapture._audio_callback`: appends a copy of the chunk to the
buffer while `is_recording` holds, otherwise drops it. -/
def audio_callback (indata : Chunk) (s : EngineState) : EngineState :=
  if s.is_recording then { s with recording := s.recording ++ [indata] } else s

/-- The producer thread delivering a batch of chunks, one callback each. -/
def deliver (chunks : List Chunk) (s : EngineState) : EngineState :=
  chunks.foldl (fun acc c => audio_callback c acc) s

/-- `np.concatenate(self.recording, axis=0)`. -/
def concatRecording (recording : List Chunk) : Chunk :=
  recording.flatten

/-- `AudioCapture.stop_recording`: clears `is_recording`, stops, closes and
drops the stream, and then examines the buffer: an empty buffer returns
`None`; otherwise the chunks are concatenated, a fresh temp path is
allocated, the data is written there, the UI is notified, and the path is
returned. A failing `sf.write` raises, so no file is recorded, no UI event
is sent and no path is returned. The buffer itself is never cleared. -/
def stop_recording (writeOk : Bool) (s : EngineState) : StopOutcome × EngineState :=
  let s1 := { s with is_recording := false, stream := false }
  if s1.recording.isEmpty then
    (StopOutcome.ok none, s1)
  else
    let path := s1.nextPath
    let s2 := { s1 with nextPath := path + 1 }
    if writeOk then
      let audio_data := concatRecording s2.recording
      let s3 := { s2 with files := s2.files ++ [audio_data] }
      let s4 := { s3 with uiEvents := s3.uiEvents ++
                    (if s3.ui_set then [UiEvent.recording_stopped path] else []) }
      (StopOutcome.ok (some path), s4)
    else
      (StopOutcome.writeFailed, s2)

/-- `AudioCapture._auto_stop`: runs `stop_recording` and, when a path was
returned and the callback is set, invokes `on_auto_stop_callback(path)`.
When `sf.write` raised inside `stop_recording`, the exception propagates
and the callback is not invoked. -/
def auto_stop (writeOk : Bool) (s : EngineState) : EngineState :=
  match stop_recording writeOk s with
  | (StopOutcome.ok (some path), s1) =>
      if s1.on_auto_stop_set then
        { s1 with autoStopCalls := s1.autoStopCalls ++ [path] }
      else s1
  | (_, s1) => s1

/-- The inputs of one iteration of the `_monitor_silence` loop body:
the current wall-clock time, the chunks the producer delivered since the
previous iteration, the verdict `_is_silent()` returns at this iteration,
and whether `sf.write` would succeed should this iteration finalize. -/
structure Tick : Type where
  now : ℚ
  newChunks : List Chunk
  silent : Bool
  writeOk : Bool

/-- One iteration of the `_monitor_silence` loop: if the loop guard
`is_recording` has been cleared the iteration does nothing; otherwise the
freshly produced chunks land in the buffer, an empty buffer short-circuits
(`continue`), a silent verdict either starts the silence clock or, once
`silence_duration` of silence has accrued and at least `min_recording_time`
has elapsed since the start, fires `_auto_stop`; a non-silent verdict
clears the silence clock and sends a `duration_update`. -/
def monitor_tick (t : Tick) (s : EngineState) : EngineState :=
  if s.is_recording then
    let s1 := deliver t.newChunks s
    if s1.recording.isEmpty then s1
    else if t.silent then
      match s1.silence_start_time with
      | none => { s1 with silence_start_time := some t.now }
      | some st =>
          if s1.silence_duration ≤ t.now - st then
            if s1.min_recording_time ≤ t.now - s1.recording_start_time then
              auto_stop t.writeOk s1
            else s1
          else s1
    else
      { s1 with silence_start_time := none,
                uiEvents := s1.uiEvents ++
                  (if s1.ui_set then
                    [UiEvent.duration_update ⌊t.now - s1.recording_start_time⌋]
                   else []) }
  else s

/-- A run of the monitor loop over a sequence of iterations. -/
def monitor_run (ticks : List Tick) (s : EngineState) : EngineState :=
  ticks.foldl (fun acc t => monitor_tick t acc) s

/-! ### Basic lemmas about the operations -/

lemma audio_callback_of_rec (c : Chunk) (s : EngineState)
    (h : s.is_recording = true) :
    audio_callback c s = { s with recording := s.recording ++ [c] } := by
  unfold audio_callback
  rw [h]
  simp

lemma deliver_of_rec (cs : List Chunk) (s : EngineState)
    (h : s.is_recording = true) :
    deliver cs s = { s with recording := s.recording ++ cs } := by
  induction cs generalizing s with
  | nil => simp [deliver]
  | cons c cs ih =>
      show deliver cs (audio_callback c s) = _
      rw [audio_callback_of_rec c s h,
        ih { s with recording := s.recording ++ [c] } h]
      simp

lemma monitor_run_nil (s : EngineState) : monitor_run [] s = s := rfl

lemma monitor_run_cons (t : Tick) (ts : List Tick) (s : EngineState) :
    monitor_run (t :: ts) s = monitor_run ts (monitor_tick t s) := rfl

lemma stop_recording_empty (wOk : Bool) (s : EngineState)
    (h : s.recording = []) :
    stop_recording wOk s =
      (StopOutcome.ok none, { s with is_recording := false, stream := false }) := by
  unfold stop_recording
  simp [h]

lemma stop_recording_ok (s : EngineState) (h : s.recording ≠ []) :
    stop_recording true s =
      (StopOutcome.ok (some s.nextPath),
       { s with is_recording := false, stream := false,
                nextPath := s.nextPath + 1,
                files := s.files ++ [concatRecording s.recording],
                uiEvents := s.uiEvents ++
                  (if s.ui_set then [UiEvent.recording_stopped s.nextPath]
                   else []) }) := by
  unfold stop_recording
  simp [h]

lemma stop_recording_fail (s : EngineState) (h : s.recording ≠ []) :
    stop_recording false s =
      (StopOutcome.writeFailed,
       { s with is_recording := false, stream := false,
                nextPath := s.nextPath + 1 }) := by
  unfold stop_recording
  simp [h]

lemma auto_stop_ok (s : EngineState) (h : s.recording ≠ []) :
    auto_stop true s =
      { s with is_recording := false, stream := false,
               nextPath := s.nextPath + 1,
               files := s.files ++ [concatRecording s.recording],
               uiEvents := s.uiEvents ++
                 (if s.ui_set then [UiEvent.recording_stopped s.nextPath]
                  else []),
               autoStopCalls := s.autoStopCalls ++
                 (if s.on_auto_stop_set then [s.nextPath] else []) } := by
  unfold auto_stop
  rw [stop_recording_ok s h]
  by_cases hcb : s.on_auto_stop_set = true <;> simp [hcb]

lemma auto_stop_fail (s : EngineState) (h : s.recording ≠ []) :
    auto_stop false s =
      { s with is_recording := false, stream := false,
               nextPath := s.nextPath + 1 } := by
  unfold auto_stop
  rw [stop_recording_fail s h]

lemma stop_recording_not_recording (wOk : Bool) (s : EngineState) :
    (stop_recording wOk s).2.is_recording = false := by
  unfold stop_recording
  dsimp only
  split
  · rfl
  · split <;> rfl

lemma auto_stop_not_recording (wOk : Bool) (s : EngineState) :
    (auto_stop wOk s).is_recording = false := by
  have h1 := stop_recording_not_recording wOk s
  unfold auto_stop
  rcases h : stop_recording wOk s with ⟨r, s1⟩
  rw [h] at h1
  rcases r with o | _
  · rcases o with _ | path
    · exact h1
    · dsimp only
      split
      · exact h1
      · exact h1
  · exact h1

lemma monitor_tick_not_rec (t : Tick) (s : EngineState)
    (h : s.is_recording = false) : monitor_tick t s = s := by
  unfold monitor_tick
  rw [h]
  simp

/-- The per-session configuration and bookkeeping that no monitor iteration
nor stop ever rewrites: the thresholds, the session start time and the two
registered callbacks. -/
def SameConfig (a b : EngineState) : Prop :=
  b.samplerate = a.samplerate ∧
  b.silence_threshold = a.silence_threshold ∧
  b.silence_duration = a.silence_duration ∧
  b.min_recording_time = a.min_recording_time ∧
  b.recording_start_time = a.recording_start_time ∧
  b.on_auto_stop_set = a.on_auto_stop_set ∧
  b.ui_set = a.ui_set

lemma sameConfig_refl (s : EngineState) : SameConfig s s :=
  ⟨rfl, rfl, rfl, rfl, rfl, rfl, rfl⟩

lemma sameConfig_trans {a b c : EngineState}
    (h1 : SameConfig a b) (h2 : SameConfig b c) : SameConfig a c := by
  obtain ⟨e1, e2, e3, e4, e5, e6, e7⟩ := h1
  obtain ⟨f1, f2, f3, f4, f5, f6, f7⟩ := h2
  exact ⟨f1.trans e1, f2.trans e2, f3.trans e3, f4.trans e4,
         f5.trans e5, f6.trans e6, f7.trans e7⟩

lemma stop_recording_sameConfig (wOk : Bool) (s : EngineState) :
    SameConfig s (stop_recording wOk s).2 := by
  unfold stop_recording
  dsimp only
  split
  · exact ⟨rfl, rfl, rfl, rfl, rfl, rfl, rfl⟩
  · split <;> exact ⟨rfl, rfl, rfl, rfl, rfl, rfl, rfl⟩

lemma auto_stop_sameConfig (wOk : Bool) (s : EngineState) :
    SameConfig s (auto_stop wOk s) := by
  have h2 := stop_recording_sameConfig wOk s
  unfold auto_stop
  rcases h : stop_recording wOk s with ⟨r, s1⟩
  rw [h] at h2
  rcases r with o | _
  · rcases o with _ | path
    · exact h2
    · dsimp only
      split
      · exact h2
      · exact h2
  · exact h2

lemma monitor_tick_sameConfig (t : Tick) (s : EngineState) :
    SameConfig s (monitor_tick t s) := by
  unfold monitor_tick
  by_cases hrec : s.is_recording = true
  · rw [hrec]
    simp only [if_true]
    rw [deliver_of_rec t.newChunks s hrec]
    split
    · exact ⟨rfl, rfl, rfl, rfl, rfl, rfl, rfl⟩
    · split
      · split
        · exact ⟨rfl, rfl, rfl, rfl, rfl, rfl, rfl⟩
        · split
          · split
            · exact auto_stop_sameConfig t.writeOk _
            · exact ⟨rfl, rfl, rfl, rfl, rfl, rfl, rfl⟩
          · exact ⟨rfl, rfl, rfl, rfl, rfl, rfl, rfl⟩
      · exact ⟨rfl, rfl, rfl, rfl, rfl, rfl, rfl⟩
  · rw [Bool.not_eq_true] at hrec
    rw [hrec]
    simp only [Bool.false_eq_true, if_false]
    exact sameConfig_refl s

lemma monitor_run_sameConfig (ticks : List Tick) (s : EngineState) :
    SameConfig s (monitor_run ticks s) := by
  induction ticks generalizing s with
  | nil => exact sameConfig_refl s
  | cons t ts ih =>
      rw [monitor_run_cons]
      exact sameConfig_trans (monitor_tick_sameConfig t s) (ih _)

/-- Inversion of one iteration: the only way an iteration of the monitor
loop can clear `is_recording` is to fire `_auto_stop`, and that requires a
silent verdict, a running silence clock at least `silence_duration` old,
and at least `min_recording_time` elapsed since the session started. -/
lemma monitor_tick_stop_inv (t : Tick) (s : EngineState)
    (hrec : s.is_recording = true)
    (hstop : (monitor_tick t s).is_recording = false) :
    t.silent = true ∧
    ∃ st : ℚ, s.silence_start_time = some st ∧
      s.silence_duration ≤ t.now - st ∧
      s.min_recording_time ≤ t.now - s.recording_start_time := by
  unfold monitor_tick at hstop
  rw [hrec] at hstop
  simp only [if_true] at hstop
  rw [deliver_of_rec t.newChunks s hrec] at hstop
  split at hstop
  · exact absurd hstop (by simp [hrec])
  · split at hstop
    · rename_i hsilent
      split at hstop
      · exact absurd hstop (by simp [hrec])
      · rename_i st hst
        split at hstop
        · rename_i hdur
          split at hstop
          · rename_i hmin
            exact ⟨hsilent, st, hst, hdur, hmin⟩
          · exact absurd hstop (by simp [hrec])
        · exact absurd hstop (by simp [hrec])
    · exact absurd hstop (by simp [hrec])

/-- An iteration with a non-silent verdict never stops the session and
leaves the silence clock cleared (given it was cleared before). -/
lemma monitor_tick_nonsilent (t : Tick) (s : EngineState)
    (hrec : s.is_recording = true) (hsil : s.silence_start_time = none)
    (hns : t.silent = false) :
    (monitor_tick t s).is_recording = true ∧
    (monitor_tick t s).silence_start_time = none := by
  unfold monitor_tick
  rw [hrec]
  simp only [if_true]
  rw [deliver_of_rec t.newChunks s hrec]
  split
  · exact ⟨hrec, hsil⟩
  · rw [hns]
    simp only [Bool.false_eq_true, if_false]
    exact ⟨hrec, trivial⟩

/-- A non-silent verdict on a non-empty buffer resets the silence clock,
whatever its previous value. -/
lemma monitor_tick_clears (t : Tick) (s : EngineState)
    (hrec : s.is_recording = true)
    (hbuf : s.recording ++ t.newChunks ≠ []) (hns : t.silent = false) :
    (monitor_tick t s).silence_start_time = none := by
  unfold monitor_tick
  rw [hrec]
  simp only [if_true]
  rw [deliver_of_rec t.newChunks s hrec]
  split
  · rename_i hempty
    simp only [List.isEmpty_iff] at hempty
    exact absurd hempty hbuf
  · rw [hns]
    simp only [Bool.false_eq_true, if_false]

/-- While the buffer is empty and no chunk arrives, an iteration of the
monitor loop is a no-op: the `continue` fires before `_is_silent` is even
consulted. -/
lemma monitor_tick_skip (t : Tick) (s : EngineState)
    (hrec : s.is_recording = true)
    (hempty : s.recording = []) (hnew : t.newChunks = []) :
    monitor_tick t s = s := by
  unfold monitor_tick
  rw [hrec]
  simp only [if_true]
  rw [deliver_of_rec t.newChunks s hrec, hempty, hnew]
  simp only [List.append_nil, List.isEmpty_nil, if_true]
  rw [← hempty]

/-- Locates the iteration that fired auto-stop: if a monitor run ends with
`is_recording` cleared, some iteration observed a silent verdict while its
silence clock was at least `silence_duration` old and at least
`min_recording_time` had elapsed since the session start. -/
lemma monitor_run_stop_find (ticks : List Tick) (s0 : EngineState)
    (hrec : s0.is_recording = true)
    (hstop : (monitor_run ticks s0).is_recording = false) :
    ∃ i : Fin ticks.length,
      (monitor_run (List.take i ticks) s0).is_recording = true ∧
      (ticks.get i).silent = true ∧
      (∃ st : ℚ,
        (monitor_run (List.take i ticks) s0).silence_start_time = some st ∧
        (monitor_run (List.take i ticks) s0).silence_duration ≤
          (ticks.get i).now - st) ∧
      (monitor_run (List.take i ticks) s0).min_recording_time ≤
        (ticks.get i).now -
          (monitor_run (List.take i ticks) s0).recording_start_time := by
  induction ticks generalizing s0 with
  | nil =>
      rw [monitor_run_nil, hrec] at hstop
      exact absurd hstop (by simp)
  | cons t ts ih =>
      rw [monitor_run_cons] at hstop
      by_cases h1 : (monitor_tick t s0).is_recording = true
      · obtain ⟨i, hi⟩ := ih (monitor_tick t s0) h1 hstop
        refine ⟨⟨i + 1, Nat.succ_lt_succ i.isLt⟩, ?_⟩
        have htake : List.take ((⟨i + 1, Nat.succ_lt_succ i.isLt⟩ :
            Fin (t :: ts).length) : ℕ) (t :: ts) = t :: List.take i ts := rfl
        have hget : (t :: ts).get ⟨i + 1, Nat.succ_lt_succ i.isLt⟩ =
            ts.get i := rfl
        rw [htake, hget, monitor_run_cons]
        exact hi
      · rw [Bool.not_eq_true] at h1
        obtain ⟨hs, st, hst, hdur, hmin⟩ := monitor_tick_stop_inv t s0 hrec h1
        refine ⟨⟨0, by simp⟩, ?_⟩
        simp only [List.take_zero, monitor_run_nil, List.get]
        exact ⟨hrec, hs, ⟨st, hst, hdur⟩, hmin⟩

/-- C1: the auto-stop transition fires only when the silence clock shows at
least `silence_duration` of continuous silence AND the total elapsed time
since the session start is at least `min_recording_time`; consequently a
session whose iterations all happen before `min_recording_time` has
elapsed never auto-stops, silent or not. -/
theorem C1_auto_stop_thresholds (s0 : EngineState) (ticks : List Tick)
    (hrec : s0.is_recording = true) :
    ((monitor_run ticks s0).is_recording = false →
      ∃ i : Fin ticks.length,
        (monitor_run (List.take i ticks) s0).is_recording = true ∧
        (ticks.get i).silent = true ∧
        (∃ st : ℚ,
          (monitor_run (List.take i ticks) s0).silence_start_time = some st ∧
          s0.silence_duration ≤ (ticks.get i).now - st) ∧
        s0.min_recording_time ≤
          (ticks.get i).now - s0.recording_start_time) ∧
    ((∀ t ∈ ticks, t.now - s0.recording_start_time < s0.min_recording_time) →
      (monitor_run ticks s0).is_recording = true) := by
  constructor
  · intro hstop
    obtain ⟨i, h1, h2, ⟨st, h3, h4⟩, h5⟩ :=
      monitor_run_stop_find ticks s0 hrec hstop
    obtain ⟨_, _, e3, e4, e5, _, _⟩ :=
      monitor_run_sameConfig (List.take i ticks) s0
    rw [e3] at h4
    rw [e4, e5] at h5
    exact ⟨i, h1, h2, ⟨st, h3, h4⟩, h5⟩
  · intro hbound
    by_contra hstop
    rw [Bool.not_eq_true] at hstop
    obtain ⟨i, h1, h2, hex, h5⟩ := monitor_run_stop_find ticks s0 hrec hstop
    obtain ⟨_, _, _, e4, e5, _, _⟩ :=
      monitor_run_sameConfig (List.take i ticks) s0
    rw [e4, e5] at h5
    have hmem : ticks.get i ∈ ticks := List.get_mem ticks i.1 i.2
    have := hbound _ hmem
    linarith

/-- C1 witness: the theorem instantiated at a freshly started session with
the default configuration and an empty run. -/
theorem C1_auto_stop_thresholds_witness :
    ((monitor_run [] (start_recording_with_auto_stop true true 0 mkState)).is_recording = false →
      ∃ i : Fin ([] : List Tick).length,
        (monitor_run (List.take i [])
          (start_recording_with_auto_stop true true 0 mkState)).is_recording = true ∧
        (([] : List Tick).get i).silent = true ∧
        (∃ st : ℚ,
          (monitor_run (List.take i [])
            (start_recording_with_auto_stop true true 0 mkState)).silence_start_time = some st ∧
          (start_recording_with_auto_stop true true 0 mkState).silence_duration ≤
            (([] : List Tick).get i).now - st) ∧
        (start_recording_with_auto_stop true true 0 mkState).min_recording_time ≤
          (([] : List Tick).get i).now -
            (start_recording_with_auto_stop true true 0 mkState).recording_start_time) ∧
    ((∀ t ∈ ([] : List Tick),
        t.now - (start_recording_with_auto_stop true true 0 mkState).recording_start_time <
          (start_recording_with_auto_stop true true 0 mkState).min_recording_time) →
      (monitor_run [] (start_recording_with_auto_stop true true 0 mkState)).is_recording = true) :=
  C1_auto_stop_thresholds (start_recording_with_auto_stop true true 0 mkState) [] rfl

/-- C3 counterexample to the claim as stated: the chunk whose single sample
is 1 has RMS exactly equal to the threshold 1, yet `_is_silent` classifies
it as NOT silent — the comparison `rms < self.silence_threshold` is
strict, so the floor is exclusive, not inclusive. -/
theorem C3_boundary_counterexample :
    rms [(1 : ℚ)] = ((1 : ℚ) : ℝ) ∧ ¬ is_silent [[(1 : ℚ)]] 1 := by
  have hms : meanSquare [(1 : ℚ)] = 1 := by norm_num [meanSquare]
  have hr : rms [(1 : ℚ)] = 1 := by
    rw [rms, hms]
    push_cast
    exact Real.sqrt_one
  constructor
  · rw [hr]; norm_num
  · intro hsil
    have hlt : rms [(1 : ℚ)] < ((1 : ℚ) : ℝ) := hsil
    rw [hr] at hlt
    norm_num at hlt

/-- C3 (amended): `_is_silent` classifies a chunk by comparing its RMS
strictly against the threshold: RMS < threshold is silent, RMS ≥ threshold
is not silent, and the boundary RMS = threshold is NOT silent (exclusive
floor), since the code tests `rms < self.silence_threshold`. -/
theorem C3_detector_rms_comparison (recording : List Chunk) (c : Chunk)
    (threshold : ℚ) (h : recording.getLast? = some c) :
    (rms c < (threshold : ℝ) → is_silent recording threshold) ∧
    ((threshold : ℝ) ≤ rms c → ¬ is_silent recording threshold) ∧
    (rms c = (threshold : ℝ) → ¬ is_silent recording threshold) := by
  unfold is_silent
  rw [h]
  refine ⟨fun hlt => hlt, fun hge hlt => absurd hlt (not_lt.mpr hge),
          fun heq hlt => ?_⟩
  have hlt2 : rms c < (threshold : ℝ) := hlt
  rw [heq] at hlt2
  exact lt_irrefl _ hlt2

/-- C3 witness: the amended theorem instantiated at the single-sample zero
chunk against the threshold 1. -/
theorem C3_detector_rms_comparison_witness :
    (rms [(0 : ℚ)] < ((1 : ℚ) : ℝ) → is_silent [[(0 : ℚ)]] 1) ∧
    (((1 : ℚ) : ℝ) ≤ rms [(0 : ℚ)] → ¬ is_silent [[(0 : ℚ)]] 1) ∧
    (rms [(0 : ℚ)] = ((1 : ℚ) : ℝ) → ¬ is_silent [[(0 : ℚ)]] 1) :=
  C3_detector_rms_comparison [[(0 : ℚ)]] [(0 : ℚ)] 1 rfl

/-- A run all of whose iterations carry a non-silent verdict keeps the
session running and the silence clock cleared. -/
lemma monitor_run_nonsilent (ticks : List Tick) (s0 : EngineState)
    (hrec : s0.is_recording = true) (hsil : s0.silence_start_time = none)
    (hns : ∀ t ∈ ticks, t.silent = false) :
    (monitor_run ticks s0).is_recording = true ∧
    (monitor_run ticks s0).silence_start_time = none := by
  revert hns
  induction ticks generalizing s0 with
  | nil =>
      intro _
      exact ⟨hrec, hsil⟩
  | cons t ts ih =>
      intro hns
      rw [monitor_run_cons]
      have h := monitor_tick_nonsilent t s0 hrec hsil
        (hns t (List.mem_cons_self t ts))
      exact ih (monitor_tick t s0) h.1 h.2
        (fun u hu => hns u (List.mem_cons_of_mem t hu))

/-- C2: a session whose monitor iterations all observe a non-silent verdict
never auto-stops, whatever the elapsed time; and any single iteration with a
non-silent verdict on a non-empty buffer resets `silence_start_time` to
absent. -/
theorem C2_nonsilent_never_stops (s0 : EngineState) (ticks : List Tick)
    (hrec : s0.is_recording = true) (hsil : s0.silence_start_time = none)
    (hns : ∀ t ∈ ticks, t.silent = false) :
    (monitor_run ticks s0).is_recording = true ∧
    (monitor_run ticks s0).silence_start_time = none ∧
    (∀ t : Tick, ∀ s : EngineState, s.is_recording = true →
      t.silent = false → s.recording ++ t.newChunks ≠ [] →
      (monitor_tick t s).silence_start_time = none) := by
  obtain ⟨h1, h2⟩ := monitor_run_nonsilent ticks s0 hrec hsil hns
  exact ⟨h1, h2, fun t s ha hb hc => monitor_tick_clears t s ha hc hb⟩

/-- C2 witness: a freshly started default session fed one loud chunk and a
non-silent verdict at time 1. -/
theorem C2_nonsilent_never_stops_witness :
    (monitor_run [⟨1, [[1]], false, true⟩]
      (start_recording_with_auto_stop true true 0 mkState)).is_recording = true ∧
    (monitor_run [⟨1, [[1]], false, true⟩]
      (start_recording_with_auto_stop true true 0 mkState)).silence_start_time = none ∧
    (∀ t : Tick, ∀ s : EngineState, s.is_recording = true →
      t.silent = false → s.recording ++ t.newChunks ≠ [] →
      (monitor_tick t s).silence_start_time = none) :=
  C2_nonsilent_never_stops (start_recording_with_auto_stop true true 0 mkState)
    [⟨1, [[1]], false, true⟩] rfl rfl
    (by
      intro t ht
      rw [List.mem_singleton] at ht
      subst ht
      rfl)

/-- While no chunk has ever been appended, every monitor iteration is a
no-op: the whole run leaves the state untouched. -/
lemma monitor_run_emptybuf (ticks : List Tick) (s0 : EngineState)
    (hrec : s0.is_recording = true) (hempty : s0.recording = [])
    (hnew : ∀ t ∈ ticks, t.newChunks = []) :
    monitor_run ticks s0 = s0 := by
  revert hnew
  induction ticks with
  | nil =>
      intro _
      rfl
  | cons t ts ih =>
      intro hnew
      rw [monitor_run_cons,
        monitor_tick_skip t s0 hrec hempty (hnew t (List.mem_cons_self t ts))]
      exact ih (fun u hu => hnew u (List.mem_cons_of_mem t hu))

/-- C9: before the first chunk arrives the monitor loop skips the silence
evaluation entirely — the silence clock stays absent and no auto-stop can
fire, even though the detector itself classifies an empty buffer as silent. -/
theorem C9_no_silence_clock_before_first_chunk (s0 : EngineState)
    (ticks : List Tick) (hrec : s0.is_recording = true)
    (hempty : s0.recording = []) (hsil : s0.silence_start_time = none)
    (hnew : ∀ t ∈ ticks, t.newChunks = []) :
    (monitor_run ticks s0).silence_start_time = none ∧
    (monitor_run ticks s0).is_recording = true ∧
    (monitor_run ticks s0).recording = [] ∧
    (∀ threshold : ℚ, is_silent [] threshold) := by
  rw [monitor_run_emptybuf ticks s0 hrec hempty hnew]
  exact ⟨hsil, hrec, hempty, fun _ => trivial⟩

/-- A run started on an already-stopped session leaves it untouched: the
loop guard `while self.is_recording` fails at once. -/
lemma monitor_run_not_rec (ticks : List Tick) (s : EngineState)
    (h : s.is_recording = false) : monitor_run ticks s = s := by
  induction ticks with
  | nil => rfl
  | cons t ts ih =>
      rw [monitor_run_cons, monitor_tick_not_rec t s h]
      exact ih

/-- C4 counterexample to the claim as stated: a session holding one chunk
is stopped twice; the second `stop_recording` is NOT a no-op — because the
buffer is never cleared it returns a DIFFERENT path (1 instead of 0) and a
second file has been written (two files in total, not one). -/
theorem C4_counterexample :
    (stop_recording true (audio_callback [(1 : ℚ)]
      (start_recording_with_auto_stop true true 0 mkState))).1 =
        StopOutcome.ok (some 0) ∧
    (stop_recording true ((stop_recording true (audio_callback [(1 : ℚ)]
      (start_recording_with_auto_stop true true 0 mkState))).2)).1 =
        StopOutcome.ok (some 1) ∧
    ((stop_recording true ((stop_recording true (audio_callback [(1 : ℚ)]
      (start_recording_with_auto_stop true true 0 mkState))).2)).2).files.length = 2 ∧
    StopOutcome.ok (some (0 : ℕ)) ≠ StopOutcome.ok (some 1) :=
  ⟨rfl, rfl, rfl, by decide⟩

/-- C4 (amended): a second `stop_recording` on a session whose buffer is
non-empty is not idempotent: the buffer survives the first stop, so the
second call concatenates the same chunks again, writes a second file under
a fresh distinct path, and returns that new path. -/
theorem C4_second_stop_duplicates (s : EngineState) (h : s.recording ≠ []) :
    (stop_recording true s).1 = StopOutcome.ok (some s.nextPath) ∧
    (stop_recording true (stop_recording true s).2).1 =
      StopOutcome.ok (some (s.nextPath + 1)) ∧
    (stop_recording true (stop_recording true s).2).2.files =
      s.files ++ [concatRecording s.recording, concatRecording s.recording] ∧
    s.nextPath ≠ s.nextPath + 1 := by
  have hrec1 : ((stop_recording true s).2).recording = s.recording := by
    rw [stop_recording_ok s h]
  have hnp1 : ((stop_recording true s).2).nextPath = s.nextPath + 1 := by
    rw [stop_recording_ok s h]
  have hfiles1 : ((stop_recording true s).2).files =
      s.files ++ [concatRecording s.recording] := by
    rw [stop_recording_ok s h]
  have h2 : ((stop_recording true s).2).recording ≠ [] := by
    rw [hrec1]; exact h
  have key2 := stop_recording_ok ((stop_recording true s).2) h2
  refine ⟨?_, ?_, ?_, Nat.ne_of_lt (Nat.lt_succ_self _)⟩
  · rw [stop_recording_ok s h]
  · rw [key2]
    dsimp only
    rw [hnp1]
  · rw [key2]
    dsimp only
    rw [hfiles1, hrec1]
    simp
/-- C4 witness: the amended theorem instantiated at a freshly started
default session that captured a single chunk. -/
theorem C4_second_stop_duplicates_witness :
    (stop_recording true (audio_callback [(1 : ℚ)]
      (start_recording_with_auto_stop true true 0 mkState))).1 =
      StopOutcome.ok (some (audio_callback [(1 : ℚ)]
        (start_recording_with_auto_stop true true 0 mkState)).nextPath) ∧
    (stop_recording true (stop_recording true (audio_callback [(1 : ℚ)]
      (start_recording_with_auto_stop true true 0 mkState))).2).1 =
      StopOutcome.ok (some ((audio_callback [(1 : ℚ)]
        (start_recording_with_auto_stop true true 0 mkState)).nextPath + 1)) ∧
    (stop_recording true (stop_recording true (audio_callback [(1 : ℚ)]
      (start_recording_with_auto_stop true true 0 mkState))).2).2.files =
      (audio_callback [(1 : ℚ)]
        (start_recording_with_auto_stop true true 0 mkState)).files ++
      [concatRecording (audio_callback [(1 : ℚ)]
        (start_recording_with_auto_stop true true 0 mkState)).recording,
       concatRecording (audio_callback [(1 : ℚ)]
        (start_recording_with_auto_stop true true 0 mkState)).recording] ∧
    (audio_callback [(1 : ℚ)]
      (start_recording_with_auto_stop true true 0 mkState)).nextPath ≠
    (audio_callback [(1 : ℚ)]
      (start_recording_with_auto_stop true true 0 mkState)).nextPath + 1 :=
  C4_second_stop_duplicates
    (audio_callback [(1 : ℚ)] (start_recording_with_auto_stop true true 0 mkState))
    (by decide)

/-- C5 counterexample to the claim as stated: with a session Active and one
chunk captured, a second `start_recording_with_auto_stop` does NOT fail and
does NOT leave the state unchanged — it resets the buffer to empty, opens a
second device stream and launches a second monitor thread. -/
theorem C5_counterexample :
    (audio_callback [(1 : ℚ)]
      (start_recording_with_auto_stop true true 0 mkState)).is_recording = true ∧
    (audio_callback [(1 : ℚ)]
      (start_recording_with_auto_stop true true 0 mkState)).recording ≠ [] ∧
    (start_recording_with_auto_stop true true 1 (audio_callback [(1 : ℚ)]
      (start_recording_with_auto_stop true true 0 mkState))).recording = [] ∧
    (start_recording_with_auto_stop true true 1 (audio_callback [(1 : ℚ)]
      (start_recording_with_auto_stop true true 0 mkState))).streamsOpened = 2 ∧
    (start_recording_with_auto_stop true true 1 (audio_callback [(1 : ℚ)]
      (start_recording_with_auto_stop true true 0 mkState))).monitorsLaunched = 2 :=
  ⟨rfl, by decide, rfl, rfl, rfl⟩

/-- C5 (amended): `start_recording_with_auto_stop` has no AlreadyRecording
guard: called while a session is Active it succeeds unconditionally,
resetting the buffer and the timers, opening an additional device stream
and launching an additional monitor thread. -/
theorem C5_start_while_active_restarts (s : EngineState) (cb ui : Bool)
    (now : ℚ) (_active : s.is_recording = true) :
    (start_recording_with_auto_stop cb ui now s).is_recording = true ∧
    (start_recording_with_auto_stop cb ui now s).recording = [] ∧
    (start_recording_with_auto_stop cb ui now s).silence_start_time = none ∧
    (start_recording_with_auto_stop cb ui now s).recording_start_time = now ∧
    (start_recording_with_auto_stop cb ui now s).streamsOpened =
      s.streamsOpened + 1 ∧
    (start_recording_with_auto_stop cb ui now s).monitorsLaunched =
      s.monitorsLaunched + 1 :=
  ⟨rfl, rfl, rfl, rfl, rfl, rfl⟩

/-- C5 witness: the amended theorem instantiated at an Active session. -/
theorem C5_start_while_active_restarts_witness :
    (start_recording_with_auto_stop true true 1
      (start_recording_with_auto_stop true true 0 mkState)).is_recording = true ∧
    (start_recording_with_auto_stop true true 1
      (start_recording_with_auto_stop true true 0 mkState)).recording = [] ∧
    (start_recording_with_auto_stop true true 1
      (start_recording_with_auto_stop true true 0 mkState)).silence_start_time = none ∧
    (start_recording_with_auto_stop true true 1
      (start_recording_with_auto_stop true true 0 mkState)).recording_start_time = 1 ∧
    (start_recording_with_auto_stop true true 1
      (start_recording_with_auto_stop true true 0 mkState)).streamsOpened =
      (start_recording_with_auto_stop true true 0 mkState).streamsOpened + 1 ∧
    (start_recording_with_auto_stop true true 1
      (start_recording_with_auto_stop true true 0 mkState)).monitorsLaunched =
      (start_recording_with_auto_stop true true 0 mkState).monitorsLaunched + 1 :=
  C5_start_while_active_restarts
    (start_recording_with_auto_stop true true 0 mkState) true true 1 rfl

/-- C6: stopping a session that captured zero chunks returns the empty
signal `None`, writes no file, emits no UI event, and still ends the
session (`is_recording` cleared). -/
theorem C6_empty_capture (s : EngineState) (wOk : Bool)
    (h : s.recording = []) :
    (stop_recording wOk s).1 = StopOutcome.ok none ∧
    (stop_recording wOk s).2.files = s.files ∧
    (stop_recording wOk s).2.uiEvents = s.uiEvents ∧
    (stop_recording wOk s).2.is_recording = false := by
  rw [stop_recording_empty wOk s h]
  exact ⟨rfl, rfl, rfl, rfl⟩

/-- C6 witness: stopping a freshly started default session before any chunk
arrived. -/
theorem C6_empty_capture_witness :
    (stop_recording true (start_recording_with_auto_stop true true 0 mkState)).1 =
      StopOutcome.ok none ∧
    (stop_recording true (start_recording_with_auto_stop true true 0 mkState)).2.files =
      (start_recording_with_auto_stop true true 0 mkState).files ∧
    (stop_recording true (start_recording_with_auto_stop true true 0 mkState)).2.uiEvents =
      (start_recording_with_auto_stop true true 0 mkState).uiEvents ∧
    (stop_recording true (start_recording_with_auto_stop true true 0 mkState)).2.is_recording =
      false :=
  C6_empty_capture (start_recording_with_auto_stop true true 0 mkState) true rfl

/-- C8: when the artifact write fails, the failure is surfaced (the
exception propagates, no path is ever returned as if the write succeeded),
no `recording_stopped` UI event is emitted and no partial artifact is
recorded. -/
theorem C8_write_failure_surfaced (s : EngineState) (h : s.recording ≠ []) :
    (stop_recording false s).1 = StopOutcome.writeFailed ∧
    (∀ p : ℕ, (stop_recording false s).1 ≠ StopOutcome.ok (some p)) ∧
    (stop_recording false s).2.files = s.files ∧
    (stop_recording false s).2.uiEvents = s.uiEvents ∧
    (stop_recording false s).2.autoStopCalls = s.autoStopCalls := by
  rw [stop_recording_fail s h]
  exact ⟨rfl, fun p hp => StopOutcome.noConfusion hp, rfl, rfl, rfl⟩

/-- C8 witness: a failing write on a default session holding one chunk. -/
theorem C8_write_failure_surfaced_witness :
    (stop_recording false (audio_callback [(1 : ℚ)]
      (start_recording_with_auto_stop true true 0 mkState))).1 =
      StopOutcome.writeFailed ∧
    (∀ p : ℕ, (stop_recording false (audio_callback [(1 : ℚ)]
      (start_recording_with_auto_stop true true 0 mkState))).1 ≠
      StopOutcome.ok (some p)) ∧
    (stop_recording false (audio_callback [(1 : ℚ)]
      (start_recording_with_auto_stop true true 0 mkState))).2.files =
      (audio_callback [(1 : ℚ)]
        (start_recording_with_auto_stop true true 0 mkState)).files ∧
    (stop_recording false (audio_callback [(1 : ℚ)]
      (start_recording_with_auto_stop true true 0 mkState))).2.uiEvents =
      (audio_callback [(1 : ℚ)]
        (start_recording_with_auto_stop true true 0 mkState)).uiEvents ∧
    (stop_recording false (audio_callback [(1 : ℚ)]
      (start_recording_with_auto_stop true true 0 mkState))).2.autoStopCalls =
      (audio_callback [(1 : ℚ)]
        (start_recording_with_auto_stop true true 0 mkState)).autoStopCalls :=
  C8_write_failure_surfaced
    (audio_callback [(1 : ℚ)] (start_recording_with_auto_stop true true 0 mkState))
    (by decide)

/-- C10: with a UI callback registered, an empty-capture stop emits no
`recording_stopped` event, while a successful stop emits exactly one,
carrying the artifact path it returns; in both cases the stream has been
stopped and dropped (the code does so before examining the buffer). -/
theorem C10_ui_events_on_stop (s : EngineState) (hui : s.ui_set = true) :
    (s.recording = [] →
      (stop_recording true s).2.uiEvents = s.uiEvents ∧
      (stop_recording true s).2.stream = false) ∧
    (s.recording ≠ [] →
      (stop_recording true s).1 = StopOutcome.ok (some s.nextPath) ∧
      (stop_recording true s).2.uiEvents =
        s.uiEvents ++ [UiEvent.recording_stopped s.nextPath] ∧
      (stop_recording true s).2.stream = false) := by
  constructor
  · intro h
    rw [stop_recording_empty true s h]
    exact ⟨rfl, rfl⟩
  · intro h
    rw [stop_recording_ok s h]
    refine ⟨rfl, ?_, rfl⟩
    dsimp only
    rw [hui]
    simp

/-- C10 witness: the theorem instantiated at a freshly started default
session with the UI callback registered. -/
theorem C10_ui_events_on_stop_witness :
    ((start_recording_with_auto_stop true true 0 mkState).recording = [] →
      (stop_recording true (start_recording_with_auto_stop true true 0 mkState)).2.uiEvents =
        (start_recording_with_auto_stop true true 0 mkState).uiEvents ∧
      (stop_recording true (start_recording_with_auto_stop true true 0 mkState)).2.stream =
        false) ∧
    ((start_recording_with_auto_stop true true 0 mkState).recording ≠ [] →
      (stop_recording true (start_recording_with_auto_stop true true 0 mkState)).1 =
        StopOutcome.ok (some (start_recording_with_auto_stop true true 0 mkState).nextPath) ∧
      (stop_recording true (start_recording_with_auto_stop true true 0 mkState)).2.uiEvents =
        (start_recording_with_auto_stop true true 0 mkState).uiEvents ++
          [UiEvent.recording_stopped
            (start_recording_with_auto_stop true true 0 mkState).nextPath] ∧
      (stop_recording true (start_recording_with_auto_stop true true 0 mkState)).2.stream =
        false) :=
  C10_ui_events_on_stop (start_recording_with_auto_stop true true 0 mkState) rfl

/-- One iteration of a live session with the callback registered and a
succeeding writer either leaves the session running with no callback
invocation, no file written and the path counter untouched, or it fires
auto-stop: the session stops, exactly one callback invocation is recorded
carrying the freshly allocated path, and exactly one file is written
holding the concatenation of the buffer. -/
lemma monitor_tick_auto_stop_once (t : Tick) (s : EngineState)
    (hrec : s.is_recording = true) (hcalls : s.autoStopCalls = [])
    (hcb : s.on_auto_stop_set = true) (hw : t.writeOk = true) :
    ((monitor_tick t s).is_recording = true ∧
     (monitor_tick t s).autoStopCalls = [] ∧
     (monitor_tick t s).files = s.files ∧
     (monitor_tick t s).nextPath = s.nextPath)
    ∨
    ((monitor_tick t s).is_recording = false ∧
     (monitor_tick t s).autoStopCalls = [s.nextPath] ∧
     (monitor_tick t s).files =
       s.files ++ [concatRecording (monitor_tick t s).recording] ∧
     (monitor_tick t s).nextPath = s.nextPath + 1) := by
  unfold monitor_tick
  rw [hrec]
  simp only [if_true]
  rw [deliver_of_rec t.newChunks s hrec]
  split
  · exact Or.inl ⟨hrec, hcalls, rfl, rfl⟩
  · rename_i hne
    split
    · split
      · exact Or.inl ⟨hrec, hcalls, rfl, rfl⟩
      · split
        · split
          · rw [hw]
            have hne2 : ({ s with recording := s.recording ++ t.newChunks } :
                EngineState).recording ≠ [] := by
              simpa [List.isEmpty_iff] using hne
            rw [auto_stop_ok _ hne2]
            refine Or.inr ⟨rfl, ?_, rfl, rfl⟩
            dsimp only
            rw [hcalls, hcb]
            simp
          · exact Or.inl ⟨hrec, hcalls, rfl, rfl⟩
        · exact Or.inl ⟨hrec, hcalls, rfl, rfl⟩
    · exact Or.inl ⟨hrec, hcalls, rfl, rfl⟩

/-- Over a whole run of a live session with the callback registered and a
succeeding writer: either the session is still running and the callback was
never invoked and no file was written, or the session auto-stopped, the
callback was invoked exactly once with the path of the single artifact
written, and the path counter advanced exactly once. -/
lemma monitor_run_auto_stop_once (ticks : List Tick) (s0 : EngineState)
    (hrec : s0.is_recording = true) (hcalls : s0.autoStopCalls = [])
    (hcb : s0.on_auto_stop_set = true)
    (hw : ∀ t ∈ ticks, t.writeOk = true) :
    ((monitor_run ticks s0).is_recording = true ∧
     (monitor_run ticks s0).autoStopCalls = [] ∧
     (monitor_run ticks s0).files = s0.files ∧
     (monitor_run ticks s0).nextPath = s0.nextPath)
    ∨
    ((monitor_run ticks s0).is_recording = false ∧
     (monitor_run ticks s0).autoStopCalls = [s0.nextPath] ∧
     (monitor_run ticks s0).files =
       s0.files ++ [concatRecording (monitor_run ticks s0).recording] ∧
     (monitor_run ticks s0).nextPath = s0.nextPath + 1) := by
  revert hw
  induction ticks generalizing s0 with
  | nil =>
      intro _
      exact Or.inl ⟨hrec, hcalls, rfl, rfl⟩
  | cons t ts ih =>
      intro hw
      rw [monitor_run_cons]
      rcases monitor_tick_auto_stop_once t s0 hrec hcalls hcb
          (hw t (List.mem_cons_self t ts)) with
        ⟨h1, h2, h3, h4⟩ | ⟨h1, h2, h3, h4⟩
      · have hcb2 : (monitor_tick t s0).on_auto_stop_set = true := by
          obtain ⟨_, _, _, _, _, e6, _⟩ := monitor_tick_sameConfig t s0
          rw [e6, hcb]
        rcases ih (monitor_tick t s0) h1 h2 hcb2
            (fun u hu => hw u (List.mem_cons_of_mem t hu)) with
          ⟨g1, g2, g3, g4⟩ | ⟨g1, g2, g3, g4⟩
        · exact Or.inl ⟨g1, g2, g3.trans h3, g4.trans h4⟩
        · refine Or.inr ⟨g1, ?_, ?_, ?_⟩
          · rw [g2, h4]
          · rw [g3, h3]
          · rw [g4, h4]
      · rw [monitor_run_not_rec ts _ h1]
        exact Or.inr ⟨h1, h2, h3, h4⟩

/-- C7: over a run of a freshly started session (callback registered, all
writes succeeding) the auto-stop callback is invoked exactly once exactly
when the run auto-stopped, and then it carries the path of the single
artifact written on that path; a manual `stop_recording` never touches the
auto-stop callback. -/
theorem C7_auto_stop_callback_once (s0 : EngineState) (ticks : List Tick)
    (hrec : s0.is_recording = true) (hcalls : s0.autoStopCalls = [])
    (hcb : s0.on_auto_stop_set = true)
    (hw : ∀ t ∈ ticks, t.writeOk = true) :
    (∀ (wOk : Bool) (s : EngineState),
      (stop_recording wOk s).2.autoStopCalls = s.autoStopCalls) ∧
    (monitor_run ticks s0).autoStopCalls.length ≤ 1 ∧
    ((monitor_run ticks s0).is_recording = false →
      (monitor_run ticks s0).autoStopCalls = [s0.nextPath] ∧
      (monitor_run ticks s0).files =
        s0.files ++ [concatRecording (monitor_run ticks s0).recording]) ∧
    ((monitor_run ticks s0).is_recording = true →
      (monitor_run ticks s0).autoStopCalls = []) := by
  have hmanual : ∀ (wOk : Bool) (s : EngineState),
      (stop_recording wOk s).2.autoStopCalls = s.autoStopCalls := by
    intro wOk s
    unfold stop_recording
    dsimp only
    split
    · rfl
    · split <;> rfl
  rcases monitor_run_auto_stop_once ticks s0 hrec hcalls hcb hw with
    ⟨h1, h2, _, _⟩ | ⟨h1, h2, h3, _⟩
  · refine ⟨hmanual, ?_, ?_, fun _ => h2⟩
    · rw [h2]
      simp
    · intro hc
      rw [h1] at hc
      simp at hc
  · refine ⟨hmanual, ?_, fun _ => ⟨h2, h3⟩, ?_⟩
    · rw [h2]
      simp
    · intro hc
      rw [h1] at hc
      simp at hc

/-- C7 witness: the theorem instantiated at a freshly started default
session observed by one loud iteration. -/
theorem C7_auto_stop_callback_once_witness :
    (∀ (wOk : Bool) (s : EngineState),
      (stop_recording wOk s).2.autoStopCalls = s.autoStopCalls) ∧
    (monitor_run [⟨1, [[1]], false, true⟩]
      (start_recording_with_auto_stop true true 0 mkState)).autoStopCalls.length ≤ 1 ∧
    ((monitor_run [⟨1, [[1]], false, true⟩]
        (start_recording_with_auto_stop true true 0 mkState)).is_recording = false →
      (monitor_run [⟨1, [[1]], false, true⟩]
        (start_recording_with_auto_stop true true 0 mkState)).autoStopCalls =
        [(start_recording_with_auto_stop true true 0 mkState).nextPath] ∧
      (monitor_run [⟨1, [[1]], false, true⟩]
        (start_recording_with_auto_stop true true 0 mkState)).files =
        (start_recording_with_auto_stop true true 0 mkState).files ++
          [concatRecording (monitor_run [⟨1, [[1]], false, true⟩]
            (start_recording_with_auto_stop true true 0 mkState)).recording]) ∧
    ((monitor_run [⟨1, [[1]], false, true⟩]
        (start_recording_with_auto_stop true true 0 mkState)).is_recording = true →
      (monitor_run [⟨1, [[1]], false, true⟩]
        (start_recording_with_auto_stop true true 0 mkState)).autoStopCalls = []) :=
  C7_auto_stop_callback_once (start_recording_with_auto_stop true true 0 mkState)
    [⟨1, [[1]], false, true⟩] rfl rfl rfl
    (by
      intro t ht
      rw [List.mem_singleton] at ht
      subst ht
      rfl)

/-- C9 witness: a freshly started default session observed by one silent
iteration before any chunk has arrived. -/
theorem C9_no_silence_clock_before_first_chunk_witness :
    (monitor_run [⟨1, [], true, true⟩]
      (start_recording_with_auto_stop true true 0 mkState)).silence_start_time = none ∧
    (monitor_run [⟨1, [], true, true⟩]
      (start_recording_with_auto_stop true true 0 mkState)).is_recording = true ∧
    (monitor_run [⟨1, [], true, true⟩]
      (start_recording_with_auto_stop true true 0 mkState)).recording = [] ∧
    (∀ threshold : ℚ, is_silent [] threshold) :=
  C9_no_silence_clock_before_first_chunk
    (start_recording_with_auto_stop true true 0 mkState)
    [⟨1, [], true, true⟩] rfl rfl rfl
    (by
      intro t ht
      rw [List.mem_singleton] at ht
      subst ht
      rfl)

end VoxCode
